import Mathlib

/-!  Verification of the document-to-answer pipeline of the RAG Document
Analyzer repository (`qa_agent.py`, `config.py`, `streamlit_app.py`).

Python strings are modelled as lists of characters (`PyStr`), so that the
slice `text[:n]` is `List.take n`, `len(text)` is `List.length`, and the
truthiness test `if not text` is `text = []`.  External effects are
modelled as oracles: a `PdfOutcome` records what `PdfReader` produced for
the given path (the per-page extracted texts, or the exception message on
an I/O or parse failure), and the completion client is a function from
(system instruction, user prompt) to `Except cause content`.  The model
identifier and sampling temperature are opaque pass-through parameters of
the external service and are absorbed into the completion oracle. -/

abbrev PyStr := List Char

/-- A Python string literal, as a list of characters. -/
def lit (s : String) : PyStr := s.data

/-- Python `str(n)` for a natural number, as used in f-string interpolation. -/
def pyStr (n : Nat) : PyStr := (toString n).data

/-- The ASCII whitespace characters removed by Python's `str.strip()`. -/
def isPyWhitespace (c : Char) : Bool :=
  c = ' ' || c = '\t' || c = '\n' || c = '\r' || c = '\x0b' || c = '\x0c'

/-- Python `s.strip()`: remove leading and trailing whitespace. -/
def pyStrip (s : PyStr) : PyStr :=
  ((s.dropWhile isPyWhitespace).reverse.dropWhile isPyWhitespace).reverse

/-- What `PdfReader(file_path)` together with the page loop produced for a
given path: either the list of per-page texts (`page.extract_text() or ""`
yields one string per page, possibly empty), or the message of the raised
exception. -/
inductive PdfOutcome where
  | ok (pages : List PyStr)
  | err (cause : PyStr)

/-- `qa_agent.extract_text_from_pdf`: concatenate the page texts in order
and strip the result; on any exception return the error string built by the
`except` branch. -/
def extract_text_from_pdf : PdfOutcome → PyStr
  | .ok pages => pyStrip (pages.foldl (· ++ ·) [])
  | .err cause => lit "[Error extracting text: " ++ cause ++ lit "]"

/-- The completion oracle: `client.chat.completions.create` applied to one
system message and one user message, returning the generated content or the
message of the raised exception. -/
abbrev Completion := PyStr → PyStr → Except PyStr PyStr

/-- System message of `generate_summary`. -/
def summary_system : PyStr := lit "You are an expert financial data summarizer."

/-- System message of `generate_insights`. -/
def insights_system : PyStr :=
  lit "You are a financial analyst who identifies trends, risks, and opportunities."

/-- System message of `generate_mcq`. -/
def mcq_system : PyStr := lit "You are a teacher creating concept-checking MCQs."

/-- System message of `answer_question`. -/
def answer_system : PyStr :=
  lit "You are an expert assistant that answers accurately from context."

/-- User prompt of `generate_summary`: the f-string embedding `text[:6000]`. -/
def summary_prompt (text : PyStr) : PyStr :=
  lit "Summarize this financial or technical document in bullet points:\n\n" ++
    text.take 6000

/-- User prompt of `generate_insights`: the f-string embedding `text[:8000]`. -/
def insights_prompt (text : PyStr) : PyStr :=
  lit "From the following financial document, derive deep insights, patterns, and anomalies:\n\n" ++
    text.take 8000

/-- User prompt of `generate_mcq`: the f-string embedding `num_questions`
and `text[:8000]`. -/
def mcq_prompt (num_questions : Nat) (text : PyStr) : PyStr :=
  lit "Generate " ++ pyStr num_questions ++
    lit " multiple choice questions with 4 options each, and provide the correct answer at the end. Use this document:\n\n" ++
    text.take 8000

/-- User prompt of `answer_question`: the f-string embedding `text[:6000]`
and the question verbatim. -/
def answer_prompt (question text : PyStr) : PyStr :=
  lit "Use the following document to answer the question:\n\nDocument:\n" ++
    text.take 6000 ++ lit "\n\nQuestion: " ++ question

/-- `qa_agent.generate_summary`. -/
def generate_summary (pdf : PdfOutcome) (complete : Completion) : PyStr :=
  if extract_text_from_pdf pdf = [] then lit "No text extracted from the document."
  else
    match complete summary_system (summary_prompt (extract_text_from_pdf pdf)) with
    | .ok content => pyStrip content
    | .error e => lit "[Summary generation error: " ++ e ++ lit "]"

/-- `qa_agent.generate_insights`. -/
def generate_insights (pdf : PdfOutcome) (complete : Completion) : PyStr :=
  if extract_text_from_pdf pdf = [] then lit "No text extracted."
  else
    match complete insights_system (insights_prompt (extract_text_from_pdf pdf)) with
    | .ok content => pyStrip content
    | .error e => lit "[Insight generation error: " ++ e ++ lit "]"

/-- `qa_agent.generate_mcq`. -/
def generate_mcq (pdf : PdfOutcome) (num_questions : Nat) (complete : Completion) : PyStr :=
  if extract_text_from_pdf pdf = [] then lit "No text extracted."
  else
    match complete mcq_system (mcq_prompt num_questions (extract_text_from_pdf pdf)) with
    | .ok content => pyStrip content
    | .error e => lit "[MCQ generation error: " ++ e ++ lit "]"

/-- `qa_agent.answer_question`. -/
def answer_question (pdf : PdfOutcome) (question : PyStr) (complete : Completion) : PyStr :=
  if extract_text_from_pdf pdf = [] then lit "No text available to answer from."
  else
    match complete answer_system (answer_prompt question (extract_text_from_pdf pdf)) with
    | .ok content => pyStrip content
    | .error e => lit "[Answer generation error: " ++ e ++ lit "]"

/-- `qa_agent.build_retrieval_index`: `name` is `Path(file_path).name`. -/
def build_retrieval_index (name : PyStr) (pdf : PdfOutcome) (chunk_size : Nat) : PyStr :=
  lit "✅ Indexed document '" ++ name ++ lit "' with " ++
    pyStr ((extract_text_from_pdf pdf).length / chunk_size + 1) ++ lit " chunks."

/-- Module-level startup of `qa_agent.py`: `api_key = os.getenv("OPENAI_API_KEY")`
followed by the `if not api_key: raise ValueError(...)` guard and
`client = OpenAI(api_key=api_key)`.  The argument is the environment
lookup's result (`none` when the variable is unset); the `Except` value is
the raised `ValueError` message, or the key held by the client. -/
def qa_agent_init (env : Option PyStr) : Except PyStr PyStr :=
  match env with
  | none => .error (lit "❌ OPENAI_API_KEY not found in .env file. Please set it properly.")
  | some api_key =>
    if api_key = [] then
      .error (lit "❌ OPENAI_API_KEY not found in .env file. Please set it properly.")
    else .ok api_key

/-- Module-level startup of `config.py`: same guard with its own message,
binding `OPENAI_API_KEY`. -/
def config_init (env : Option PyStr) : Except PyStr PyStr :=
  match env with
  | none => .error (lit "OpenAI API key not found in environment variables")
  | some key =>
    if key = [] then .error (lit "OpenAI API key not found in environment variables")
    else .ok key

/-- `streamlit_app.py` line `st.session_state.last_mcqs = mcqs.split("\n\n")`:
Python's `str.split` with the two-character separator `"\n\n"`, which scans
left to right and cuts at each leftmost non-overlapping occurrence. -/
def mcq_split : PyStr → List PyStr
  | [] => [[]]
  | '\n' :: '\n' :: rest => [] :: mcq_split rest
  | c :: rest =>
    match mcq_split rest with
    | [] => [[c]]
    | b :: bs => (c :: b) :: bs

/-- `streamlit_app.py` line `"\n\n".join(edited_mcqs)`: Python's `str.join`
with the same separator. -/
def mcq_join : List PyStr → PyStr
  | [] => []
  | [b] => b
  | b :: bs => b ++ '\n' :: '\n' :: mcq_join bs


/-! ## Helper lemmas -/

theorem extract_err_ne_nil (cause : PyStr) : extract_text_from_pdf (.err cause) ≠ [] := by
  intro h
  have h' : lit "[Error extracting text: " ++ cause ++ lit "]" = [] := h
  rw [List.append_eq_nil] at h'
  exact absurd h'.2 (by decide)

theorem dropWhile_head?_false (p : Char → Bool) (l : PyStr) (c : Char)
    (h : (l.dropWhile p).head? = some c) : p c = false := by
  have h' := List.head?_dropWhile_not p l
  rw [h] at h'
  exact h'

theorem pyStrip_getLast?_false (s : PyStr) (c : Char)
    (h : (pyStrip s).getLast? = some c) : isPyWhitespace c = false := by
  rw [pyStrip, List.getLast?_reverse] at h
  exact dropWhile_head?_false _ _ _ h

theorem pyStrip_head?_false (s : PyStr) (c : Char)
    (h : (pyStrip s).head? = some c) : isPyWhitespace c = false := by
  rw [pyStrip, List.head?_reverse] at h
  obtain ⟨pre, hpre⟩ :=
    (List.dropWhile_suffix isPyWhitespace :
      _ <:+ (s.dropWhile isPyWhitespace).reverse)
  have h2 : (s.dropWhile isPyWhitespace).reverse.getLast? = some c := by
    rw [← hpre, List.getLast?_append, h]
    rfl
  rw [List.getLast?_reverse] at h2
  exact dropWhile_head?_false _ _ _ h2

/-! ## Claim theorems -/

/-- Claim C9: text extraction is total over extraction outcomes; on any
extraction failure it returns the string `[Error extracting text: <cause>]`,
which is non-empty, so the `if not text` emptiness check cannot distinguish
it from successfully extracted text. -/
theorem extract_total_on_failure (cause : PyStr) :
    extract_text_from_pdf (.err cause) =
      lit "[Error extracting text: " ++ cause ++ lit "]" ∧
    extract_text_from_pdf (.err cause) ≠ [] :=
  ⟨rfl, extract_err_ne_nil cause⟩

/-- Witness for C9 at a concrete cause. -/
theorem extract_total_on_failure_witness :
    extract_text_from_pdf (.err (lit "no such file")) ≠ [] :=
  (extract_total_on_failure (lit "no such file")).2

/-- Claim C2: in every task's user prompt the embedded document fragment is
`text.take B` for that task's budget (summarize 6000, insights 8000, MCQ
8000, question answering 6000); for text longer than a budget `B` the
fragment has length exactly `B` and is a prefix of the text, and for text
not longer than `B` the fragment is the entire text verbatim. -/
theorem prompt_fragment_budget (text q : PyStr) (n : Nat) :
    summary_prompt text =
      lit "Summarize this financial or technical document in bullet points:\n\n" ++
        text.take 6000 ∧
    insights_prompt text =
      lit "From the following financial document, derive deep insights, patterns, and anomalies:\n\n" ++
        text.take 8000 ∧
    mcq_prompt n text =
      lit "Generate " ++ pyStr n ++
        lit " multiple choice questions with 4 options each, and provide the correct answer at the end. Use this document:\n\n" ++
        text.take 8000 ∧
    answer_prompt q text =
      lit "Use the following document to answer the question:\n\nDocument:\n" ++
        text.take 6000 ++ lit "\n\nQuestion: " ++ q ∧
    (∀ B : Nat, B < text.length → (text.take B).length = B ∧ text.take B <+: text) ∧
    (∀ B : Nat, text.length ≤ B → text.take B = text) := by
  refine ⟨rfl, rfl, rfl, rfl, ?_, ?_⟩
  · intro B hB
    exact ⟨List.length_take_of_le (Nat.le_of_lt hB),
      ⟨text.drop B, List.take_append_drop B text⟩⟩
  · intro B hB
    exact List.take_of_length_le hB

/-- Witness for C2 at a concrete short text. -/
theorem prompt_fragment_budget_witness :
    (lit "hello").take 6000 = lit "hello" :=
  (prompt_fragment_budget (lit "hello") (lit "q") 5).2.2.2.2.2 6000 (by decide)

/-- Claim C3: the index-summary stub reports `len(text) // chunk_size + 1`
chunks inside the formatted confirmation string; length 2048 with chunk
size 1024 gives 3, and length 0 gives 1. -/
theorem build_retrieval_index_chunk_count (name : PyStr) (pdf : PdfOutcome) (C : Nat)
    (_hC : 0 < C) :
    build_retrieval_index name pdf C =
      lit "✅ Indexed document '" ++ name ++ lit "' with " ++
        pyStr ((extract_text_from_pdf pdf).length / C + 1) ++ lit " chunks." ∧
    ((extract_text_from_pdf pdf).length = 2048 → C = 1024 →
      (extract_text_from_pdf pdf).length / C + 1 = 3) ∧
    ((extract_text_from_pdf pdf).length = 0 →
      (extract_text_from_pdf pdf).length / C + 1 = 1) := by
  refine ⟨rfl, ?_, ?_⟩
  · intro h1 h2
    rw [h1, h2]
  · intro h1
    rw [h1]
    simp [Nat.zero_div]

/-- Witness for C3 at a concrete empty document and chunk size 1024. -/
theorem build_retrieval_index_chunk_count_witness :
    (extract_text_from_pdf (PdfOutcome.ok [])).length / 1024 + 1 = 1 :=
  (build_retrieval_index_chunk_count (lit "doc.pdf") (PdfOutcome.ok []) 1024
    (by decide)).2.2 rfl

/-- Claim C5 (amended): all four task functions special-case empty extracted
text, each returning its own placeholder message and never calling the
completion service. -/
theorem empty_text_placeholder_all_four (pdf : PdfOutcome) (f : Completion)
    (q : PyStr) (n : Nat) (h : extract_text_from_pdf pdf = []) :
    generate_summary pdf f = lit "No text extracted from the document." ∧
    generate_insights pdf f = lit "No text extracted." ∧
    generate_mcq pdf n f = lit "No text extracted." ∧
    answer_question pdf q f = lit "No text available to answer from." := by
  refine ⟨?_, ?_, ?_, ?_⟩ <;>
    simp [generate_summary, generate_insights, generate_mcq, answer_question, h]

/-- Witness for C5's amended theorem at a concrete empty document. -/
theorem empty_text_placeholder_all_four_witness :
    generate_summary (PdfOutcome.ok []) (fun _ _ => Except.ok (lit "LLM")) =
      lit "No text extracted from the document." :=
  (empty_text_placeholder_all_four (PdfOutcome.ok [])
    (fun _ _ => Except.ok (lit "LLM")) (lit "q") 5 rfl).1

/-- Claim C5 counterexample: with empty extracted text and a completion
oracle that would succeed, every one of the four tasks — not exactly two of
them — returns its placeholder instead of proceeding to the completion
call. -/
theorem empty_text_counterexample :
    generate_summary (PdfOutcome.ok []) (fun _ _ => Except.ok (lit "LLM output")) =
      lit "No text extracted from the document." ∧
    generate_insights (PdfOutcome.ok []) (fun _ _ => Except.ok (lit "LLM output")) =
      lit "No text extracted." ∧
    generate_mcq (PdfOutcome.ok []) 5 (fun _ _ => Except.ok (lit "LLM output")) =
      lit "No text extracted." ∧
    answer_question (PdfOutcome.ok []) (lit "q") (fun _ _ => Except.ok (lit "LLM output")) =
      lit "No text available to answer from." ∧
    lit "No text extracted." ≠ lit "LLM output" :=
  ⟨by decide, by decide, by decide, by decide, by decide⟩

/-- Claim C6: whenever the completion service fails (for any cause `e`) and
the per-task extraction produced non-empty text, each task function returns
a result equal to — hence prefixed by — its task-specific error tag, instead
of propagating the failure. -/
theorem completion_failure_tagged (pdf : PdfOutcome) (q e : PyStr) (n : Nat)
    (h : extract_text_from_pdf pdf ≠ []) :
    generate_summary pdf (fun _ _ => .error e) =
      lit "[Summary generation error: " ++ e ++ lit "]" ∧
    generate_insights pdf (fun _ _ => .error e) =
      lit "[Insight generation error: " ++ e ++ lit "]" ∧
    generate_mcq pdf n (fun _ _ => .error e) =
      lit "[MCQ generation error: " ++ e ++ lit "]" ∧
    answer_question pdf q (fun _ _ => .error e) =
      lit "[Answer generation error: " ++ e ++ lit "]" ∧
    lit "[Answer generation error: " <+: answer_question pdf q (fun _ _ => .error e) := by
  have h4 : answer_question pdf q (fun _ _ => .error e) =
      lit "[Answer generation error: " ++ e ++ lit "]" := by
    simp [answer_question, h]
  refine ⟨?_, ?_, ?_, h4, ?_⟩
  · simp [generate_summary, h]
  · simp [generate_insights, h]
  · simp [generate_mcq, h]
  · rw [h4]
    exact ⟨e ++ lit "]", (List.append_assoc _ _ _).symm⟩

/-- Witness for C6 at a concrete document and a forced timeout. -/
theorem completion_failure_tagged_witness :
    generate_summary (PdfOutcome.ok [lit "doc"])
        (fun _ _ => Except.error (lit "timeout")) =
      lit "[Summary generation error: " ++ lit "timeout" ++ lit "]" :=
  (completion_failure_tagged (PdfOutcome.ok [lit "doc"]) (lit "q") (lit "timeout") 5
    (by decide)).1

/-- Claim C8 (amended): if the credential is absent — or present but empty,
which the `if not api_key` guard treats identically — module initialization
of both `qa_agent.py` and `config.py` fails with the configuration error;
if it is present and non-empty, startup completes with exactly that key
loaded into the module's client state. -/
theorem startup_credential_guard (k : PyStr) (hk : k ≠ []) :
    qa_agent_init none =
      Except.error (lit "❌ OPENAI_API_KEY not found in .env file. Please set it properly.") ∧
    config_init none =
      Except.error (lit "OpenAI API key not found in environment variables") ∧
    qa_agent_init (some []) =
      Except.error (lit "❌ OPENAI_API_KEY not found in .env file. Please set it properly.") ∧
    config_init (some []) =
      Except.error (lit "OpenAI API key not found in environment variables") ∧
    qa_agent_init (some k) = Except.ok k ∧
    config_init (some k) = Except.ok k := by
  refine ⟨rfl, rfl, rfl, rfl, ?_, ?_⟩
  · simp [qa_agent_init, hk]
  · simp [config_init, hk]

/-- Witness for C8's amended theorem at a concrete non-empty key. -/
theorem startup_credential_guard_witness :
    qa_agent_init (some (lit "sk-test")) = Except.ok (lit "sk-test") :=
  (startup_credential_guard (lit "sk-test") (by decide)).2.2.2.2.1

/-- Claim C8 counterexample: the credential can be present in the
environment (set to the empty string) while module initialization still
raises the configuration error, contradicting "if the credential is
present, startup completes". -/
theorem startup_present_empty_counterexample :
    (some (lit "")).isSome = true ∧
    qa_agent_init (some (lit "")) =
      Except.error (lit "❌ OPENAI_API_KEY not found in .env file. Please set it properly.") ∧
    config_init (some (lit "")) =
      Except.error (lit "OpenAI API key not found in environment variables") :=
  ⟨rfl, rfl, rfl⟩

/-- Claim C1 (amended): on an extraction failure no task function raises;
extraction is converted into the non-empty string
`[Error extracting text: <cause>]`, which does not short-circuit any task —
each task proceeds to the completion call with that string as document
text, so when the completion service succeeds the task's result is the
trimmed completion output (which need not mention the task name or the
cause), and only a completion failure yields the task-tagged error. -/
theorem extraction_failure_not_short_circuited (cause out q : PyStr) (n : Nat) :
    extract_text_from_pdf (.err cause) =
      lit "[Error extracting text: " ++ cause ++ lit "]" ∧
    extract_text_from_pdf (.err cause) ≠ [] ∧
    generate_summary (.err cause) (fun _ _ => .ok out) = pyStrip out ∧
    generate_insights (.err cause) (fun _ _ => .ok out) = pyStrip out ∧
    generate_mcq (.err cause) n (fun _ _ => .ok out) = pyStrip out ∧
    answer_question (.err cause) q (fun _ _ => .ok out) = pyStrip out := by
  refine ⟨rfl, extract_err_ne_nil cause, ?_, ?_, ?_, ?_⟩ <;>
    simp [generate_summary, generate_insights, generate_mcq, answer_question,
      extract_err_ne_nil cause]

/-- Witness for C1's amended theorem at a concrete cause. -/
theorem extraction_failure_not_short_circuited_witness :
    generate_summary (.err (lit "x")) (fun _ _ => .ok (lit "ok")) =
      pyStrip (lit "ok") :=
  (extraction_failure_not_short_circuited (lit "x") (lit "ok") (lit "q") 1).2.2.1

/-- Claim C1 counterexample: on a failed extraction (cause "boom") with a
succeeding completion service, `generate_summary` returns the service's
output "All good", which contains neither the underlying cause nor the task
name — refuting "the task function returns an error string that contains
the task name and the underlying cause". -/
theorem extraction_failure_counterexample :
    generate_summary (PdfOutcome.err (lit "boom"))
        (fun _ _ => Except.ok (lit "All good")) = lit "All good" ∧
    ¬ lit "boom" <:+: lit "All good" ∧
    ¬ lit "Summary" <:+: lit "All good" :=
  ⟨by decide, by decide, by decide⟩

/-- Claim C7: the system instruction each task sends is a fixed constant of
the task kind alone: any two completion oracles that agree on the task's
fixed system instruction produce identical task results on every document,
and Summarize's instruction is the literal
"You are an expert financial data summarizer.". -/
theorem system_instruction_fixed (pdf : PdfOutcome) (f g : Completion)
    (q : PyStr) (n : Nat)
    (hs : ∀ u, f summary_system u = g summary_system u)
    (hi : ∀ u, f insights_system u = g insights_system u)
    (hm : ∀ u, f mcq_system u = g mcq_system u)
    (ha : ∀ u, f answer_system u = g answer_system u) :
    summary_system = lit "You are an expert financial data summarizer." ∧
    generate_summary pdf f = generate_summary pdf g ∧
    generate_insights pdf f = generate_insights pdf g ∧
    generate_mcq pdf n f = generate_mcq pdf n g ∧
    answer_question pdf q f = answer_question pdf q g := by
  refine ⟨rfl, ?_, ?_, ?_, ?_⟩ <;>
    simp only [generate_summary, generate_insights, generate_mcq, answer_question,
      hs, hi, hm, ha]

/-- Witness for C7 at a concrete document with two definitionally equal
oracles. -/
theorem system_instruction_fixed_witness :
    summary_system = lit "You are an expert financial data summarizer." :=
  (system_instruction_fixed (PdfOutcome.ok []) (fun _ _ => Except.ok [])
    (fun _ _ => Except.ok []) (lit "q") 5
    (fun _ => rfl) (fun _ => rfl) (fun _ => rfl) (fun _ => rfl)).1

/-- Claim C10: on a successful completion call (non-empty extracted text,
oracle returns `content`), every task returns `content` with leading and
trailing whitespace stripped, and a stripped string never begins or ends
with a whitespace character. -/
theorem success_result_stripped (pdf : PdfOutcome) (content q : PyStr) (n : Nat)
    (h : extract_text_from_pdf pdf ≠ []) :
    generate_summary pdf (fun _ _ => .ok content) = pyStrip content ∧
    generate_insights pdf (fun _ _ => .ok content) = pyStrip content ∧
    generate_mcq pdf n (fun _ _ => .ok content) = pyStrip content ∧
    answer_question pdf q (fun _ _ => .ok content) = pyStrip content ∧
    (∀ c : Char, (pyStrip content).head? = some c → isPyWhitespace c = false) ∧
    (∀ c : Char, (pyStrip content).getLast? = some c → isPyWhitespace c = false) := by
  refine ⟨?_, ?_, ?_, ?_, fun c hc => pyStrip_head?_false content c hc,
    fun c hc => pyStrip_getLast?_false content c hc⟩ <;>
    simp [generate_summary, generate_insights, generate_mcq, answer_question, h]

/-- Witness for C10 at a concrete document and completion output. -/
theorem success_result_stripped_witness :
    generate_summary (PdfOutcome.ok [lit "x"]) (fun _ _ => Except.ok (lit " hi ")) =
      pyStrip (lit " hi ") :=
  (success_result_stripped (PdfOutcome.ok [lit "x"]) (lit " hi ") (lit "q") 5
    (by decide)).1

theorem mcq_split_cons (c : Char) (rest b : PyStr) (bs : List PyStr)
    (h : ¬(c = '\n' ∧ rest.head? = some '\n'))
    (hrec : mcq_split rest = b :: bs) :
    mcq_split (c :: rest) = (c :: b) :: bs := by
  rw [mcq_split.eq_def]
  split
  · simp_all
  · rename_i heq
    rw [List.cons.injEq] at heq
    exact absurd ⟨heq.1, by rw [heq.2]; rfl⟩ h
  · rename_i x heq
    rw [List.cons.injEq] at heq
    obtain ⟨h1, h2⟩ := heq
    subst h1
    subst h2
    rw [hrec]

theorem mcq_split_block (t : PyStr) : ∀ b : PyStr,
    ¬ lit "\n\n" <:+: b → b.getLast? ≠ some '\n' →
    mcq_split (b ++ '\n' :: '\n' :: t) = b :: mcq_split t := by
  intro b
  induction b with
  | nil => intro _ _; rfl
  | cons c b' ih =>
    intro h1 h2
    have hm : mcq_split (b' ++ '\n' :: '\n' :: t) = b' :: mcq_split t := by
      refine ih ?_ ?_
      · intro hinf
        obtain ⟨u, v, huv⟩ := hinf
        exact h1 ⟨c :: u, v, by rw [← huv]; simp⟩
      · cases b' with
        | nil => simp
        | cons d b'' => simpa using h2
    refine mcq_split_cons c _ _ _ ?_ hm
    rintro ⟨rfl, hhead⟩
    cases b' with
    | nil => exact h2 rfl
    | cons d b'' =>
      have hd : d = '\n' := by simpa using hhead
      subst hd
      exact h1 ⟨[], b'', rfl⟩

theorem mcq_split_clean : ∀ b : PyStr, ¬ lit "\n\n" <:+: b → mcq_split b = [b] := by
  intro b
  induction b with
  | nil => intro _; rfl
  | cons c b' ih =>
    intro h1
    have hm : mcq_split b' = [b'] := by
      refine ih ?_
      intro hinf
      obtain ⟨u, v, huv⟩ := hinf
      exact h1 ⟨c :: u, v, by rw [← huv]; simp⟩
    refine mcq_split_cons c b' b' [] ?_ hm
    rintro ⟨rfl, hhead⟩
    cases b' with
    | nil => simp at hhead
    | cons d b'' =>
      have hd : d = '\n' := by simpa using hhead
      subst hd
      exact h1 ⟨[], b'', rfl⟩

/-- Claim C4 (amended): splitting on the double line break is a left
inverse of joining with it for every non-empty sequence of blocks in which
no block contains the delimiter `"\n\n"` and no block other than possibly
the last ends with a newline character.  (As stated, the claim fails for
the empty sequence, for blocks containing the delimiter, and for a
non-final block ending in a newline, where the leftmost-first scan cuts at
the straddling occurrence.) -/
theorem mcq_split_join_roundtrip : ∀ blocks : List PyStr, blocks ≠ [] →
    (∀ b ∈ blocks, ¬ lit "\n\n" <:+: b) →
    (∀ b ∈ blocks.dropLast, b.getLast? ≠ some '\n') →
    mcq_split (mcq_join blocks) = blocks := by
  intro blocks
  induction blocks with
  | nil => intro h _ _; exact absurd rfl h
  | cons b rest ih =>
    intro _ hinf hlast
    cases rest with
    | nil => exact mcq_split_clean b (hinf b (by simp))
    | cons b2 rest' =>
      rw [show mcq_join (b :: b2 :: rest') = b ++ '\n' :: '\n' :: mcq_join (b2 :: rest') from rfl]
      rw [mcq_split_block (mcq_join (b2 :: rest')) b (hinf b (by simp))
        (hlast b (by simp [List.dropLast]))]
      rw [ih (by simp) (fun x hx => hinf x (List.mem_cons_of_mem b hx))
        (fun x hx => hlast x (by simp [List.dropLast, hx]))]

/-- Witness for C4's amended theorem on two concrete well-formed blocks. -/
theorem mcq_split_join_roundtrip_witness :
    mcq_split (mcq_join [lit "Q1. What?", lit "Q2. Why?"]) =
      [lit "Q1. What?", lit "Q2. Why?"] :=
  mcq_split_join_roundtrip [lit "Q1. What?", lit "Q2. Why?"]
    (by decide) (by decide) (by decide)

/-- Claim C4 counterexample: a single block that itself contains the
delimiter is cut in two by the round trip, so splitting is not a left
inverse of joining on every sequence of blocks. -/
theorem mcq_split_join_counterexample :
    mcq_split (mcq_join [lit "a\n\nb"]) = [lit "a", lit "b"] ∧
    [lit "a", lit "b"] ≠ [lit "a\n\nb"] :=
  ⟨by decide, by decide⟩
